import Mathlib

/-!
Verification development for the Ozon product scraper (Go, two variants:
`src/main.go` and the stealth variant in `src/unnamed/part_000`).

The Go string primitives used by the scraper (`strings.Contains`,
`strings.Split`, `strings.HasPrefix`, `strings.TrimSpace`, byte-length
`len`) are embedded below as executable functions on `String` / `List Char`,
and the two `Search` / `GetProduct` pipelines are embedded as pure
functions of an explicit page view (the values the browser queries would
return).  Machine integers from Go (`int`) are modelled as `Int`; no
arithmetic in the embedded code can overflow at realizable inputs.
-/

/-- Does the pattern (first argument) lead the character list (second
argument)?  Embeds the prefix test underlying Go `strings.HasPrefix`. -/
def charsLead : List Char → List Char → Bool
  | [], _ => true
  | _ :: _, [] => false
  | p :: ps, c :: cs => p == c && charsLead ps cs

/-- Does the character list contain the pattern as a contiguous substring?
Embeds Go `strings.Contains` (for a non-empty pattern). -/
def charsHave (pat : List Char) : List Char → Bool
  | [] => charsLead pat []
  | c :: cs => charsLead pat (c :: cs) || charsHave pat cs

/-- Remove the pattern from the front of the list, if it leads it. -/
def stripLead : List Char → List Char → Option (List Char)
  | [], s => some s
  | _ :: _, [] => none
  | p :: ps, c :: cs => if p == c then stripLead ps cs else none

/-- Fuel-driven splitter on character lists: splits at each leftmost
non-overlapping occurrence of `sep`.  With `fuel ≥` the length of the
input and a non-empty `sep` the fuel never runs out. -/
def goSplitAux (sep : List Char) : Nat → List Char → List (List Char)
  | _, [] => [[]]
  | 0, s => [s]
  | fuel + 1, c :: cs =>
    match stripLead sep (c :: cs) with
    | some rest => [] :: goSplitAux sep fuel rest
    | none =>
      match goSplitAux sep fuel cs with
      | [] => [[c]]
      | r :: rs => (c :: r) :: rs

/-- Embeds Go `strings.Split`.  For an empty separator Go explodes the
string into its runes; the scraper never passes an empty separator. -/
def goSplit (s sep : String) : List String :=
  if sep = "" then s.data.map (fun c => String.mk [c])
  else (goSplitAux sep.data s.data.length s.data).map (fun cs => String.mk cs)

/-- Embeds Go `strings.Contains` (the scraper only uses non-empty
substrings, where this agrees with Go). -/
def goContains (s sub : String) : Bool := charsHave sub.data s.data

/-- Embeds Go `strings.HasPrefix`. -/
def goStarts (s p : String) : Bool := charsLead p.data s.data

/-- Number of bytes in the UTF-8 encoding of a character. -/
def charBytes (c : Char) : Nat :=
  if c.val ≤ 0x7F then 1
  else if c.val ≤ 0x7FF then 2
  else if c.val ≤ 0xFFFF then 3
  else 4

/-- Embeds Go `len` on a string: the number of BYTES of its UTF-8
encoding, not the number of characters. -/
def goLen (s : String) : Nat := s.data.foldl (fun n c => n + charBytes c) 0

/-- Embeds Go `unicode.IsSpace` on the white space characters relevant
here (ASCII white space plus NEL and NBSP). -/
def goIsSpace (c : Char) : Bool :=
  c == ' ' || c == '\t' || c == '\n' || c == '\u000B' || c == '\u000C' ||
    c == '\r' || c == '\u0085' || c == '\u00A0'

/-- Embeds Go `strings.TrimSpace`. -/
def goTrimSpace (s : String) : String :=
  String.mk (((s.data.dropWhile goIsSpace).reverse.dropWhile goIsSpace).reverse)

/-- One listing or detail record, as in both Go variants (struct
`Product`, fields in source order with their zero values). -/
structure Product where
  name : String := ""
  price : String := ""
  oldPrice : String := ""
  link : String := ""
  image : String := ""
  rating : String := ""
  reviews : String := ""
  delivery : String := ""
deriving DecidableEq, Repr

/-- Result of one search invocation (struct `SearchResult`); `count` is a
Go `int`, modelled as `Int`. -/
structure SearchResult where
  query : String
  count : Int
  products : List Product
deriving DecidableEq, Repr

/-- One matched element of the stealth search page
(`page.Elements("a[href*=\x27/product/\x27]")` in `src/unnamed/part_000`):
the values the code reads off it.  `href` is `none` when `Attribute`
errors or returns nil; `text` is the value of `elem.Text()` (the Go code
ignores its error, in which case the zero value `""` is used); `imgSrc`
is the `src` attribute of the first `img` descendant, if any. -/
structure SElem where
  href : Option String
  text : String
  imgSrc : Option String

/-- Link resolution and qualification for one stealth search element
(`src/unnamed/part_000` lines 245-264): resolve the `href` to an absolute
URL, require it to contain `"/product/"`, and require the split at
`"/product/"` to have at least two parts. -/
def elemLink (e : SElem) : Option String :=
  match e.href with
  | none => none
  | some href =>
    let link := if goStarts href "http" then href else "https://www.ozon.ru" ++ href
    if goContains link "/product/" = false then none
    else if (goSplit link "/product/").length < 2 then none
    else some link

/-- Canonical product identity (`src/unnamed/part_000` lines 259-264):
`strings.Split(link, "/product/")[1]`, truncated first at `"?"`, then at
`"/"`. -/
def canonicalId (link : String) : String :=
  let tl := ((goSplit link "/product/").get? 1).getD ""
  let beforeQuery := (goSplit tl "?").headD ""
  (goSplit beforeQuery "/").headD ""

/-- One iteration of the name/price heuristic of the stealth search loop
(`src/unnamed/part_000` lines 277-285): trim the line; the name is set
when still empty and the line has byte length `> 10` without the
currency marker; the price is set when still empty and the line contains
the marker. -/
def npStep (np : String × String) (line : String) : String × String :=
  let line := goTrimSpace line
  let nm := if 10 < goLen line ∧ goContains line "₽" = false ∧ np.1 = "" then line else np.1
  let pr := if goContains line "₽" = true ∧ np.2 = "" then line else np.2
  (nm, pr)

/-- Name/price heuristic of the stealth search loop
(`src/unnamed/part_000` lines 274-285): split the trimmed element text on
newlines and fold `npStep` over the lines. -/
def extractNamePrice (text : String) : String × String :=
  (goSplit (goTrimSpace text) "\n").foldl npStep ("", "")

/-- Product committed for one qualifying stealth search element
(`src/unnamed/part_000` lines 271-295). -/
def stealthProduct (link : String) (e : SElem) : Product :=
  { name := (extractNamePrice e.text).1, price := (extractNamePrice e.text).2,
    oldPrice := "", link := link, image := e.imgSrc.getD "",
    rating := "", reviews := "", delivery := "" }

/-- The element loop of the stealth `Search` (`src/unnamed/part_000`
lines 238-297): `seen` is the dedup set keyed by canonical identity,
`count` the number of committed products, `maxP` the `maxProducts`
argument. -/
def stealthSearchLoop (maxP : Int) : List SElem → List String → Int → List Product
  | [], _, _ => []
  | e :: rest, seen, count =>
    if maxP ≤ count then []
    else
      match elemLink e with
      | none => stealthSearchLoop maxP rest seen count
      | some link =>
        let pid := canonicalId link
        if pid ∈ seen then stealthSearchLoop maxP rest seen count
        else
          if (extractNamePrice e.text).1 ≠ "" ∨ link ≠ "" then
            stealthProduct link e :: stealthSearchLoop maxP rest (pid :: seen) (count + 1)
          else stealthSearchLoop maxP rest (pid :: seen) count

/-- Extraction phase of the stealth `Search`: the loop started with an
empty dedup set and zero count. -/
def stealthExtract (maxP : Int) (elems : List SElem) : List Product :=
  stealthSearchLoop maxP elems [] 0

/-- Entry block check of the stealth `Search` (`src/unnamed/part_000`
line 174): either configured block marker. -/
def blockedEntry (html : String) : Bool :=
  goContains html "Доступ ограничен" || goContains html "Antibot"

/-- Recovery re-check of the stealth `Search` (`src/unnamed/part_000`
line 194): only the access-restricted marker is re-checked. -/
def stillBlocked (html : String) : Bool := goContains html "Доступ ограничен"

/-- States of the block detection state machine (spec section 4.5). -/
inductive BlockState where
  | unblocked
  | blocked
  | failed
deriving DecidableEq, Repr

/-- State after the entry content check of the stealth `Search`. -/
def entryState (html : String) : BlockState :=
  if blockedEntry html then BlockState.blocked else BlockState.unblocked

/-- Page view consumed by the stealth `Search`: the rendered content at
the entry check, the content re-fetched after the recovery cycle,
whether a `#reload-button` element exists, and the elements matching
`a[href*=\x27/product/\x27]` once extraction proceeds. -/
structure StealthPageView where
  entryHtml : String
  recoveryHtml : String
  hasReloadBtn : Bool
  elems : List SElem

/-- Observable outcome of one stealth `Search` call: the returned
result, whether the `access restricted` error was returned, how many
times the diagnostic file was written, and how often each recovery
action ran. -/
structure StealthTrace where
  result : SearchResult
  accessErr : Bool
  diagWrites : Nat
  recoverySimPasses : Nat
  reloadClicks : Nat
  cooldownWaits : Nat
deriving Repr

/-- Tail of the stealth `Search` after the block protocol
(`src/unnamed/part_000` lines 215-300): find product link elements; if
none, write the diagnostic file when debug is on and return the empty
result without error; otherwise run the extraction loop. -/
def stealthProceed (query : String) (maxP : Int) (debug : Bool)
    (elems : List SElem) (passes clicks cooldowns : Nat) : StealthTrace :=
  if elems.isEmpty then
    { result := { query := query, count := 0, products := [] }, accessErr := false,
      diagWrites := if debug then 1 else 0,
      recoverySimPasses := passes, reloadClicks := clicks, cooldownWaits := cooldowns }
  else
    let ps := stealthExtract maxP elems
    { result := { query := query, count := (ps.length : Int), products := ps },
      accessErr := false, diagWrites := 0,
      recoverySimPasses := passes, reloadClicks := clicks, cooldownWaits := cooldowns }

/-- The stealth `Search` (`src/unnamed/part_000` lines 150-301) as a
function of the page view.  On a blocked entry check the code runs the
human simulator twice, optionally clicks `#reload-button` (with one more
simulator pass), waits the cooldown, re-fetches, and gives up (returning
the empty result plus the error, writing the diagnostic file only in
debug mode) iff the re-fetched content still contains the
access-restricted marker. -/
def stealthSearchTrace (query : String) (maxP : Int) (debug : Bool)
    (pg : StealthPageView) : StealthTrace :=
  if blockedEntry pg.entryHtml then
    let passes := if pg.hasReloadBtn then 3 else 2
    let clicks := if pg.hasReloadBtn then 1 else 0
    if stillBlocked pg.recoveryHtml then
      { result := { query := query, count := 0, products := [] }, accessErr := true,
        diagWrites := if debug then 1 else 0,
        recoverySimPasses := passes, reloadClicks := clicks, cooldownWaits := 1 }
    else stealthProceed query maxP debug pg.elems passes clicks 1
  else stealthProceed query maxP debug pg.elems 0 0 0
/-- One observable action of `simulateHuman`. -/
inductive SimAction where
  | move (x y : Nat)
  | sleepMs (ms : Nat)
  | scroll (dx dy : Nat)
deriving DecidableEq, Repr

/-- Is the action a pointer move? -/
def isMove : SimAction → Bool
  | SimAction.move _ _ => true
  | _ => false

/-- Width of the viewport set by `createStealthPage`
(`src/unnamed/part_000` line 85: `page.MustSetViewport(414, 896, 2, true)`). -/
def stealthViewportWidth : Nat := 414

/-- Height of the viewport set by `createStealthPage`. -/
def stealthViewportHeight : Nat := 896

/-- `simulateHuman` (`src/unnamed/part_000` lines 135-148) as a function
of the random draws: `r i` is the value of the `i`-th call to
`rand.Intn`, reduced modulo its bound (for actual `rand.Intn` results
the `%` is the identity).  Three pointer moves to
`(100+Intn(1700), 100+Intn(800))`, each followed by a 100-299 ms delay
(`randomDelay(100, 300)` sleeps `min + Intn(max-min)` ms), then one
scroll by `200+Intn(400)` px followed by a 500-999 ms delay. -/
def simulateHuman (r : Nat → Nat) : List SimAction :=
  ((List.range 3).map fun i =>
    [SimAction.move (100 + r (3 * i) % 1700) (100 + r (3 * i + 1) % 800),
     SimAction.sleepMs (100 + r (3 * i + 2) % 200)]).flatten ++
  [SimAction.scroll 0 (200 + r 9 % 400),
   SimAction.sleepMs (500 + r 10 % 500)]

/-- Page view consumed by both `GetProduct` variants: the rendered
content, the text of the first element matching a selector (`none` when
no element matches or reading fails), and the `src` attribute of the
first image matching a selector. -/
structure DetailPage where
  html : String
  queryText : String → Option String
  queryImgSrc : String → Option String

/-- Selector cascade keeping the first non-empty trimmed text
(`src/main.go` lines 175-194 and 250-262: element found, text read
without error and non-empty, then `strings.TrimSpace` and break). -/
def cascadeText (q : String → Option String) : List String → String
  | [] => ""
  | s :: rest =>
    match q s with
    | some t => if t = "" then cascadeText q rest else goTrimSpace t
    | none => cascadeText q rest

/-- Price cascade of the stealth `GetProduct` (`src/unnamed/part_000`
lines 328-339): the text must additionally contain the currency
marker. -/
def cascadePriceRu (q : String → Option String) : List String → String
  | [] => ""
  | s :: rest =>
    match q s with
    | some t =>
      if t ≠ "" ∧ goContains t "₽" = true then goTrimSpace t else cascadePriceRu q rest
    | none => cascadePriceRu q rest

/-- Price selectors of `GetProduct` in `src/main.go` (lines 250-254). -/
def mainDetailPriceSelectors : List String :=
  ["span[data-widget=\x27webPrice\x27] span", "div[data-widget=\x27webPrice\x27] span",
   "span.price-number"]

/-- Price selectors of `GetProduct` in `src/unnamed/part_000`
(lines 328-331). -/
def stealthDetailPriceSelectors : List String :=
  ["div[data-widget=\x27webPrice\x27] span", "span[class*=\x27price\x27]"]

/-- Title extraction shared by both `GetProduct` variants: text of the
first `h1`, trimmed; empty when the element is absent. -/
def detailNameOf (pg : DetailPage) : String :=
  match pg.queryText "h1" with
  | some t => goTrimSpace t
  | none => ""

/-- Gallery image extraction shared by both `GetProduct` variants. -/
def detailImageOf (pg : DetailPage) : String :=
  match pg.queryImgSrc "div[data-widget=\x27webGallery\x27] img" with
  | some s => s
  | none => ""

/-- Rating extraction of `GetProduct` in `src/main.go` (lines 272-276). -/
def mainDetailRatingOf (pg : DetailPage) : String :=
  match pg.queryText "div[data-widget=\x27webReviewRating\x27]" with
  | some t => goTrimSpace t
  | none => ""

/-- Rating extraction of `GetProduct` in `src/unnamed/part_000`
(lines 347-351). -/
def stealthDetailRatingOf (pg : DetailPage) : String :=
  match pg.queryText "div[data-widget=\x27webReviewProductScore\x27]" with
  | some t => goTrimSpace t
  | none => ""

/-- `GetProduct` of `src/main.go` (lines 220-279): always returns a
product carrying the requested url; each field comes from its own
selector cascade and is left empty on a miss.  The antibot branch only
re-fetches content that is not used afterwards. -/
def mainGetProduct (url : String) (pg : DetailPage) : Product :=
  let nm := match pg.queryText "h1" with
    | some t => goTrimSpace t
    | none => ""
  let pr := cascadeText pg.queryText mainDetailPriceSelectors
  let im := match pg.queryImgSrc "div[data-widget=\x27webGallery\x27] img" with
    | some s => s
    | none => ""
  let ra := match pg.queryText "div[data-widget=\x27webReviewRating\x27]" with
    | some t => goTrimSpace t
    | none => ""
  { name := nm, price := pr, oldPrice := "", link := url, image := im,
    rating := ra, reviews := "", delivery := "" }

/-- `GetProduct` of `src/unnamed/part_000` (lines 303-354): when the
rendered content contains the access-restricted marker the call returns
an error and no product (`none`); otherwise a product carrying the
requested url, fields from their own cascades. -/
def stealthGetProduct (url : String) (pg : DetailPage) : Option Product :=
  if goContains pg.html "Доступ ограничен" then none
  else
    let nm := match pg.queryText "h1" with
      | some t => goTrimSpace t
      | none => ""
    let pr := cascadePriceRu pg.queryText stealthDetailPriceSelectors
    let im := match pg.queryImgSrc "div[data-widget=\x27webGallery\x27] img" with
      | some s => s
      | none => ""
    let ra := match pg.queryText "div[data-widget=\x27webReviewProductScore\x27]" with
      | some t => goTrimSpace t
      | none => ""
    some { name := nm, price := pr, oldPrice := "", link := url, image := im,
           rating := ra, reviews := "", delivery := "" }
/-- One matched element of the `src/main.go` search loop: the values the
code reads off it.  `href` is the element's own `href` attribute,
`innerHrefProduct` the `href` of a descendant `a[href*=\x27/product/\x27]`
(tried only when the element has no `href` of its own), `queryText` the
text of the first descendant matching a selector, `imgSrc` the `src` of
the first `img` descendant. -/
structure MElem where
  href : Option String
  innerHrefProduct : Option String
  queryText : String → Option String
  imgSrc : Option String

/-- Element selection cascade of `Search` in `src/main.go`
(lines 117-122). -/
def mainSelectors : List String :=
  ["div[data-widget=\x27searchResultsV2\x27] > div > div",
   "div.widget-search-result-container > div > div",
   "div.j8t > div",
   "a[href*=\x27/product/\x27]"]

/-- Name selectors of the `src/main.go` search loop (line 175). -/
def mainNameSelectors : List String :=
  ["span.tsBody500Medium", "span[class*=\x27tsBody\x27]", "span.tile-name"]

/-- Price selectors of the `src/main.go` search loop (line 186). -/
def mainPriceSelectors : List String :=
  ["span.tsHeadline500Medium", "span[class*=\x27price\x27]", "span.c3"]

/-- Rating selector of the `src/main.go` search loop (line 204). -/
def mainRatingSelector : String := "span[class*=\x27rating\x27], div[class*=\x27star\x27]"

/-- Link resolution of the `src/main.go` search loop (lines 154-167):
the element's own `href` (absolutized when not starting with `http`),
else a descendant product link prefixed with the host. -/
def mainElemLink (e : MElem) : String :=
  match e.href with
  | some l => if goStarts l "http" then l else "https://www.ozon.ru" ++ l
  | none =>
    match e.innerHrefProduct with
    | some h => "https://www.ozon.ru" ++ h
    | none => ""

/-- Name extracted for one `src/main.go` search element (lines 174-183). -/
def mainElemName (e : MElem) : String := cascadeText e.queryText mainNameSelectors

/-- Price extracted for one `src/main.go` search element (lines 185-194). -/
def mainElemPrice (e : MElem) : String := cascadeText e.queryText mainPriceSelectors

/-- Rating extracted for one `src/main.go` search element
(lines 203-208): trims even an empty text when the element exists. -/
def mainElemRating (e : MElem) : String :=
  match e.queryText mainRatingSelector with
  | some t => goTrimSpace t
  | none => ""

/-- Product committed for one `src/main.go` search element. -/
def mainProduct (link : String) (e : MElem) : Product :=
  { name := mainElemName e, price := mainElemPrice e, oldPrice := "",
    link := link, image := e.imgSrc.getD "", rating := mainElemRating e,
    reviews := "", delivery := "" }

/-- The element loop of `Search` in `src/main.go` (lines 146-214): skip
elements without a qualifying product link, extract fields, and commit
only products with a non-empty name or price; only committed products
count toward `maxProducts`. -/
def mainSearchLoop (maxP : Int) : List MElem → Int → List Product
  | [], _ => []
  | e :: rest, count =>
    if maxP ≤ count then []
    else
      let link := mainElemLink e
      if link = "" ∨ goContains link "/product/" = false then mainSearchLoop maxP rest count
      else
        if mainElemName e ≠ "" ∨ mainElemPrice e ≠ "" then
          mainProduct link e :: mainSearchLoop maxP rest (count + 1)
        else mainSearchLoop maxP rest count

/-- Block marker check of `Search` in `src/main.go` (line 95). -/
def mainBlockMarker (html : String) : Bool :=
  goContains html "Antibot" || goContains html "antibot"

/-- First selector of the cascade returning at least one element
(`src/main.go` lines 124-133); empty when all strategies miss. -/
def firstHit (f : String → List MElem) : List String → List MElem
  | [] => []
  | s :: rest => if (f s).isEmpty then firstHit f rest else f s

/-- Page view consumed by `Search` in `src/main.go`: rendered content at
the first check, content re-fetched after the antibot wait, and the
elements each selector strategy yields. -/
structure MainPageView where
  entryHtml : String
  recoveryHtml : String
  elementsFor : String → List MElem

/-- Observable outcome of one `src/main.go` `Search` call.  The function
returns a nil error on every path, recorded as `accessErr = false`;
`antibotWaits` counts the extra 10 s wait-and-refetch taken when the
antibot marker is present at the first check. -/
structure MainTrace where
  result : SearchResult
  accessErr : Bool
  diagWrites : Nat
  antibotWaits : Nat

/-- `Search` of `src/main.go` (lines 69-218) as a function of the page
view. -/
def mainSearchTrace (query : String) (maxP : Int) (debug : Bool)
    (pg : MainPageView) : MainTrace :=
  let waits := if mainBlockMarker pg.entryHtml then 1 else 0
  let elems := firstHit pg.elementsFor mainSelectors
  if elems.isEmpty then
    { result := { query := query, count := 0, products := [] }, accessErr := false,
      diagWrites := if debug then 1 else 0, antibotWaits := waits }
  else
    let ps := mainSearchLoop maxP elems 0
    { result := { query := query, count := (ps.length : Int), products := ps },
      accessErr := false, diagWrites := 0, antibotWaits := waits }

/-- The key-value pairs serialized for one `Product` by Go
`encoding/json`, read off the struct tags in both variants
(`src/main.go` lines 16-25, `src/unnamed/part_000` lines 18-27):
`name`, `price` and `link` carry no `omitempty` and are always emitted;
`old_price`, `image`, `rating`, `reviews` and `delivery` carry
`omitempty` and are dropped when empty. -/
def productJSONFields (p : Product) : List (String × String) :=
  [("name", p.name), ("price", p.price)]
    ++ (if p.oldPrice = "" then [] else [("old_price", p.oldPrice)])
    ++ [("link", p.link)]
    ++ (if p.image = "" then [] else [("image", p.image)])
    ++ (if p.rating = "" then [] else [("rating", p.rating)])
    ++ (if p.reviews = "" then [] else [("reviews", p.reviews)])
    ++ (if p.delivery = "" then [] else [("delivery", p.delivery)])

/-- The keys present in the serialized form of one `Product`. -/
def jsonKeys (p : Product) : List String := (productJSONFields p).map Prod.fst
/-- The candidate product of one stealth search element before
deduplication: the element's qualifying link together with the fields
the loop would extract. -/
def candidateOf (e : SElem) : Option Product :=
  match elemLink e with
  | none => none
  | some link => some (stealthProduct link e)

/-- All candidate products of a stealth search page, in DOM encounter
order. -/
def candidates (elems : List SElem) : List Product :=
  elems.filterMap candidateOf

/-- Deduplication by canonical identity as the spec words it: of any
products sharing an identity, only the first is kept (`seen` carries the
identities already taken). -/
def dedupFirstAux (seen : List String) : List Product → List Product
  | [] => []
  | p :: rest =>
    if canonicalId p.link ∈ seen then dedupFirstAux seen rest
    else p :: dedupFirstAux (canonicalId p.link :: seen) rest

/-- Modelled from the claim wording of C3 for comparison with the code:
the name as `the first line longer than 10 CHARACTERS that does not
contain the currency marker` (the code measures bytes instead). -/
def specNameByCharCount (text : String) : String :=
  (((goSplit (goTrimSpace text) "\n").map goTrimSpace).find?
    (fun l => decide (10 < l.length) && !(goContains l "₽"))).getD ""

/-- Name predicate of the byte-length rule: trimmed line of UTF-8 byte
length `> 10` without the currency marker. -/
def pN (l : String) : Bool := decide (10 < goLen l) && !(goContains l "₽")

/-- Price predicate: line contains the currency marker. -/
def pP (l : String) : Bool := goContains l "₽"

/-- The name rule the code actually implements, phrased as a first-match
search: first trimmed line of UTF-8 byte length `> 10` without the
currency marker. -/
def nameByByteRule (text : String) : String :=
  (((goSplit (goTrimSpace text) "\n").map goTrimSpace).find? pN).getD ""

/-- The price rule as a first-match search: first trimmed line
containing the currency marker. -/
def priceRule (text : String) : String :=
  (((goSplit (goTrimSpace text) "\n").map goTrimSpace).find? pP).getD ""
/-- The guard chain of `elemLink` only returns the link itself, and only
when both guards pass. -/
lemma linkGuards {l link : String}
    (h : (if goContains l "/product/" = false then none
          else if (goSplit l "/product/").length < 2 then none else some l) = some link) :
    goContains link "/product/" = true ∧ 2 ≤ (goSplit link "/product/").length := by
  split at h
  · cases h
  · split at h
    · cases h
    · rename_i h1 h2
      injection h with h
      subst h
      refine ⟨?_, by omega⟩
      cases hg : goContains l "/product/" with
      | false => exact absurd hg h1
      | true => rfl

/-- A qualifying stealth element link passed both guards: it contains
the product-path marker and its split there has at least two parts. -/
lemma elemLink_some {e : SElem} {link : String} (h : elemLink e = some link) :
    goContains link "/product/" = true ∧ 2 ≤ (goSplit link "/product/").length := by
  unfold elemLink at h
  cases he : e.href with
  | none => rw [he] at h; cases h
  | some href =>
    rw [he] at h
    simp only at h
    exact linkGuards h

/-- A string containing the product-path marker is non-empty. -/
lemma contains_product_ne_empty {l : String} (h : goContains l "/product/" = true) :
    l ≠ "" := by
  intro hl
  subst hl
  exact absurd h (by decide)
/-- A non-qualifying element contributes no candidate. -/
lemma candidates_cons_none {e : SElem} {rest : List SElem} (h : elemLink e = none) :
    candidates (e :: rest) = candidates rest := by
  simp [candidates, List.filterMap_cons, candidateOf, h]

/-- A qualifying element contributes its product as the next candidate. -/
lemma candidates_cons_some {e : SElem} {rest : List SElem} {link : String}
    (h : elemLink e = some link) :
    candidates (e :: rest) = stealthProduct link e :: candidates rest := by
  simp [candidates, List.filterMap_cons, candidateOf, h]

/-- The stealth search loop equals the spec pipeline: candidates in DOM
order, deduplicated keeping the first of each canonical identity, capped
at the remaining budget. -/
lemma stealthLoop_eq_dedup (maxP : Int) :
    ∀ (elems : List SElem) (seen : List String) (count : Int),
      stealthSearchLoop maxP elems seen count =
        (dedupFirstAux seen (candidates elems)).take (maxP - count).toNat := by
  intro elems
  induction elems with
  | nil => intro seen count; simp [stealthSearchLoop, candidates, dedupFirstAux]
  | cons e rest ih =>
    intro seen count
    by_cases hc : maxP ≤ count
    · have h0 : (maxP - count).toNat = 0 := by omega
      simp [stealthSearchLoop, hc, h0]
    · cases hel : elemLink e with
      | none =>
        rw [candidates_cons_none hel]
        simp only [stealthSearchLoop, hel, if_neg hc]
        exact ih seen count
      | some link =>
        rw [candidates_cons_some hel]
        simp only [stealthSearchLoop, hel, if_neg hc]
        by_cases hs : canonicalId link ∈ seen
        · have hps : canonicalId (stealthProduct link e).link ∈ seen := hs
          rw [if_pos hs, dedupFirstAux, if_pos hps]
          exact ih seen count
        · have hlink : link ≠ "" :=
            contains_product_ne_empty (elemLink_some hel).1
          have hps : ¬ canonicalId (stealthProduct link e).link ∈ seen := hs
          rw [if_neg hs, if_pos (Or.inr hlink), dedupFirstAux, if_neg hps]
          obtain ⟨n, hn⟩ : ∃ n, (maxP - count).toNat = n + 1 :=
            ⟨(maxP - count).toNat - 1, by omega⟩
          have hn' : (maxP - (count + 1)).toNat = n := by omega
          rw [hn, List.take_succ_cons, ih (canonicalId link :: seen) (count + 1), hn']
          rfl
/-- Products surviving deduplication have identities outside `seen`. -/
lemma dedupFirstAux_not_seen :
    ∀ (l : List Product) (seen : List String) (p : Product),
      p ∈ dedupFirstAux seen l → canonicalId p.link ∉ seen := by
  intro l
  induction l with
  | nil => intro seen p hp; simp [dedupFirstAux] at hp
  | cons q rest ih =>
    intro seen p hp
    by_cases h : canonicalId q.link ∈ seen
    · rw [dedupFirstAux, if_pos h] at hp
      exact ih seen p hp
    · rw [dedupFirstAux, if_neg h] at hp
      rcases List.mem_cons.mp hp with rfl | htail
      · exact h
      · intro hmem
        exact ih _ p htail (List.mem_cons_of_mem _ hmem)

/-- Deduplication yields pairwise distinct canonical identities. -/
lemma dedupFirstAux_pairwise :
    ∀ (l : List Product) (seen : List String),
      (dedupFirstAux seen l).Pairwise
        (fun a b => canonicalId a.link ≠ canonicalId b.link) := by
  intro l
  induction l with
  | nil => intro seen; simp [dedupFirstAux]
  | cons q rest ih =>
    intro seen
    by_cases h : canonicalId q.link ∈ seen
    · rw [dedupFirstAux, if_pos h]
      exact ih seen
    · rw [dedupFirstAux, if_neg h]
      refine List.Pairwise.cons ?_ (ih _)
      intro b hb heq
      have := dedupFirstAux_not_seen rest _ b hb
      exact this (heq ▸ List.mem_cons_self _ _)

/-- The extraction phase of the stealth `Search` never emits two
products with the same canonical identity. -/
lemma stealthExtract_pairwise (maxP : Int) (elems : List SElem) :
    (stealthExtract maxP elems).Pairwise
      (fun a b => canonicalId a.link ≠ canonicalId b.link) := by
  rw [stealthExtract, stealthLoop_eq_dedup]
  exact (dedupFirstAux_pairwise _ _).sublist (List.take_sublist _ _)

/-- The products of any stealth `Search` call are either empty or the
extraction phase's output. -/
lemma stealthTrace_products (q : String) (maxP : Int) (debug : Bool)
    (pg : StealthPageView) :
    (stealthSearchTrace q maxP debug pg).result.products = [] ∨
    (stealthSearchTrace q maxP debug pg).result.products = stealthExtract maxP pg.elems := by
  unfold stealthSearchTrace stealthProceed
  by_cases h1 : blockedEntry pg.entryHtml <;>
    by_cases h2 : stillBlocked pg.recoveryHtml <;>
    by_cases h3 : pg.elems.isEmpty <;>
    simp [h1, h2, h3]

/-- The stealth search loop commits at most the remaining budget (zero
when the budget is already spent or negative). -/
lemma stealthLoop_length (maxP : Int) (elems : List SElem) (seen : List String)
    (count : Int) :
    (stealthSearchLoop maxP elems seen count).length ≤ (maxP - count).toNat := by
  rw [stealthLoop_eq_dedup]
  exact List.length_take_le _ _

/-- The `src/main.go` search loop commits at most the remaining budget
(zero when the budget is already spent or negative). -/
lemma mainLoop_length (maxP : Int) :
    ∀ (elems : List MElem) (count : Int),
      (mainSearchLoop maxP elems count).length ≤ (maxP - count).toNat := by
  intro elems
  induction elems with
  | nil => intro count; simp [mainSearchLoop]
  | cons e rest ih =>
    intro count
    by_cases hc : maxP ≤ count
    · simp [mainSearchLoop, hc]
    · simp only [mainSearchLoop, if_neg hc]
      split
      · exact le_trans (ih count) (by omega)
      · split
        · simp only [List.length_cons]
          have := ih (count + 1)
          omega
        · exact le_trans (ih count) (by omega)
/-- The name predicate in propositional form. -/
lemma pN_true_iff {l : String} :
    pN l = true ↔ (10 < goLen l ∧ goContains l "₽" = false) := by
  simp [pN]

/-- A line passing the name predicate is non-empty. -/
lemma pN_ne_empty {l : String} (h : pN l = true) : l ≠ "" := by
  intro hl; subst hl; exact absurd h (by decide)

/-- A line passing the price predicate is non-empty. -/
lemma pP_ne_empty {l : String} (h : pP l = true) : l ≠ "" := by
  intro hl; subst hl; exact absurd h (by decide)

/-- The fold of `npStep` keeps the first match of each predicate: it
computes the first-match searches over the trimmed lines, unless the
accumulator already holds a (non-empty) value. -/
lemma foldl_npStep :
    ∀ (lines : List String) (acc : String × String),
      lines.foldl npStep acc =
        ((if acc.1 = "" then (((lines.map goTrimSpace).find? pN).getD "") else acc.1),
         (if acc.2 = "" then (((lines.map goTrimSpace).find? pP).getD "") else acc.2)) := by
  intro lines
  induction lines with
  | nil =>
    intro acc
    obtain ⟨a, b⟩ := acc
    by_cases h1 : a = "" <;> by_cases h2 : b = "" <;> simp [h1, h2]
  | cons l rest ih =>
    intro acc
    obtain ⟨a, b⟩ := acc
    have hstep : npStep (a, b) l =
        (if 10 < goLen (goTrimSpace l) ∧ goContains (goTrimSpace l) "₽" = false ∧ a = ""
          then goTrimSpace l else a,
         if goContains (goTrimSpace l) "₽" = true ∧ b = "" then goTrimSpace l else b) := rfl
    rw [List.foldl_cons, ih (npStep (a, b) l), List.map_cons, Prod.mk.injEq]
    constructor
    · simp only [hstep]
      by_cases ha : a = ""
      · by_cases hn : pN (goTrimSpace l) = true
        · have h1 := pN_true_iff.mp hn
          have hne := pN_ne_empty hn
          have e1 : (if 10 < goLen (goTrimSpace l) ∧
              goContains (goTrimSpace l) "₽" = false ∧ a = ""
              then goTrimSpace l else a) = goTrimSpace l := if_pos ⟨h1.1, h1.2, ha⟩
          rw [e1, if_neg hne, if_pos ha, List.find?_cons_of_pos _ hn]
          rfl
        · have h1 : ¬ (10 < goLen (goTrimSpace l) ∧
              goContains (goTrimSpace l) "₽" = false ∧ a = "") := by
            intro hcon
            exact hn (pN_true_iff.mpr ⟨hcon.1, hcon.2.1⟩)
          have e1 : (if 10 < goLen (goTrimSpace l) ∧
              goContains (goTrimSpace l) "₽" = false ∧ a = ""
              then goTrimSpace l else a) = a := if_neg h1
          rw [e1, if_pos ha, if_pos ha, List.find?_cons_of_neg _ hn]
      · have h1 : ¬ (10 < goLen (goTrimSpace l) ∧
            goContains (goTrimSpace l) "₽" = false ∧ a = "") := by
          intro hcon
          exact ha hcon.2.2
        have e1 : (if 10 < goLen (goTrimSpace l) ∧
            goContains (goTrimSpace l) "₽" = false ∧ a = ""
            then goTrimSpace l else a) = a := if_neg h1
        rw [e1, if_neg ha, if_neg ha]
    · simp only [hstep]
      by_cases hb : b = ""
      · by_cases hp : pP (goTrimSpace l) = true
        · have hcp : goContains (goTrimSpace l) "₽" = true := hp
          have hne := pP_ne_empty hp
          have e2 : (if goContains (goTrimSpace l) "₽" = true ∧ b = ""
              then goTrimSpace l else b) = goTrimSpace l := if_pos ⟨hcp, hb⟩
          rw [e2, if_neg hne, if_pos hb, List.find?_cons_of_pos _ hp]
          rfl
        · have hcp : ¬ (goContains (goTrimSpace l) "₽" = true ∧ b = "") := by
            intro hcon
            exact hp hcon.1
          have e2 : (if goContains (goTrimSpace l) "₽" = true ∧ b = ""
              then goTrimSpace l else b) = b := if_neg hcp
          rw [e2, if_pos hb, if_pos hb, List.find?_cons_of_neg _ hp]
      · have hcp : ¬ (goContains (goTrimSpace l) "₽" = true ∧ b = "") := by
          intro hcon
          exact hb hcon.2
        have e2 : (if goContains (goTrimSpace l) "₽" = true ∧ b = ""
            then goTrimSpace l else b) = b := if_neg hcp
        rw [e2, if_neg hb, if_neg hb]

/-- The text heuristic equals the two first-match rules. -/
lemma extractNamePrice_eq (text : String) :
    extractNamePrice text = (nameByByteRule text, priceRule text) := by
  rw [extractNamePrice, foldl_npStep]
  simp [nameByByteRule, priceRule]
/-- Every product committed by the `src/main.go` search loop has a
non-empty name or price, and a non-empty product-path link. -/
lemma mainLoop_mem (maxP : Int) :
    ∀ (elems : List MElem) (count : Int) (p : Product),
      p ∈ mainSearchLoop maxP elems count →
        (p.name ≠ "" ∨ p.price ≠ "") ∧ p.link ≠ "" ∧
          goContains p.link "/product/" = true := by
  intro elems
  induction elems with
  | nil => intro count p hp; simp [mainSearchLoop] at hp
  | cons e rest ih =>
    intro count p hp
    by_cases hc : maxP ≤ count
    · simp [mainSearchLoop, hc] at hp
    · simp only [mainSearchLoop, if_neg hc] at hp
      split at hp
      · exact ih count p hp
      · rename_i hguard
        push_neg at hguard
        split at hp
        · rename_i hcommit
          rcases List.mem_cons.mp hp with rfl | htail
          · refine ⟨hcommit, hguard.1, ?_⟩
            cases hgc : goContains (mainElemLink e) "/product/" with
            | false => exact absurd hgc hguard.2
            | true => exact hgc
          · exact ih (count + 1) p htail
        · exact ih count p hp

/-- Once the budget is spent the `src/main.go` search loop stops. -/
lemma mainLoop_stop {maxP count : Int} (h : maxP ≤ count) :
    ∀ (elems : List MElem), mainSearchLoop maxP elems count = [] := by
  intro elems
  cases elems <;> simp [mainSearchLoop, h]

/-- An element whose extracted name and price are both empty is
transparent to the `src/main.go` search loop: it is not emitted and does
not consume budget. -/
lemma mainLoop_skip_empty (maxP count : Int) (e : MElem) (rest : List MElem)
    (hn : mainElemName e = "") (hp : mainElemPrice e = "") :
    mainSearchLoop maxP (e :: rest) count = mainSearchLoop maxP rest count := by
  by_cases hc : maxP ≤ count
  · rw [mainLoop_stop hc, mainLoop_stop hc]
  · simp only [mainSearchLoop, if_neg hc]
    split
    · rfl
    · rw [if_neg]
      simp [hn, hp]

/-- The products of any `src/main.go` search call are either empty or
the loop's output on the first selector hit. -/
lemma mainTrace_products (q : String) (maxP : Int) (debug : Bool)
    (pg : MainPageView) :
    (mainSearchTrace q maxP debug pg).result.products = [] ∨
    (mainSearchTrace q maxP debug pg).result.products =
      mainSearchLoop maxP (firstHit pg.elementsFor mainSelectors) 0 := by
  unfold mainSearchTrace
  by_cases h : (firstHit pg.elementsFor mainSelectors).isEmpty <;> simp [h]

/-- The declared count of any `src/main.go` search call equals the
number of returned products. -/
lemma mainTrace_count (q : String) (maxP : Int) (debug : Bool)
    (pg : MainPageView) :
    (mainSearchTrace q maxP debug pg).result.count =
      ((mainSearchTrace q maxP debug pg).result.products.length : Int) := by
  unfold mainSearchTrace
  by_cases h : (firstHit pg.elementsFor mainSelectors).isEmpty <;> simp [h]

/-- The declared count of any stealth search call equals the number of
returned products. -/
lemma stealthTrace_count (q : String) (maxP : Int) (debug : Bool)
    (pg : StealthPageView) :
    (stealthSearchTrace q maxP debug pg).result.count =
      ((stealthSearchTrace q maxP debug pg).result.products.length : Int) := by
  unfold stealthSearchTrace stealthProceed
  by_cases h1 : blockedEntry pg.entryHtml <;>
    by_cases h2 : stillBlocked pg.recoveryHtml <;>
    by_cases h3 : pg.elems.isEmpty <;>
    simp [h1, h2, h3]

/-- The `src/main.go` search never returns more products than a
non-negative `maxProducts`. -/
lemma mainTrace_length_le (q : String) (maxP : Int) (debug : Bool)
    (pg : MainPageView) :
    (mainSearchTrace q maxP debug pg).result.products.length ≤ maxP.toNat := by
  rcases mainTrace_products q maxP debug pg with h | h
  · simp [h]
  · rw [h]
    have := mainLoop_length maxP (firstHit pg.elementsFor mainSelectors) 0
    simpa using this

/-- The stealth search never returns more products than a non-negative
`maxProducts`. -/
lemma stealthTrace_length_le (q : String) (maxP : Int) (debug : Bool)
    (pg : StealthPageView) :
    (stealthSearchTrace q maxP debug pg).result.products.length ≤ maxP.toNat := by
  rcases stealthTrace_products q maxP debug pg with h | h
  · simp [h]
  · rw [h]
    have := stealthLoop_length maxP pg.elems [] 0
    simpa [stealthExtract] using this
/-- When every selector strategy yields no elements the cascade result
is empty. -/
lemma firstHit_empty (f : String → List MElem) :
    ∀ (sels : List String), (∀ s ∈ sels, f s = []) → firstHit f sels = [] := by
  intro sels
  induction sels with
  | nil => intro _; rfl
  | cons s rest ih =>
    intro h
    rw [firstHit, h s (List.mem_cons_self _ _)]
    simp only [List.isEmpty_nil, if_true]
    exact ih (fun t ht => h t (List.mem_cons_of_mem _ ht))

/-- C1 counterexample: the `src/main.go` `Search` performs no
deduplication — it keeps no set of seen identities — so a page whose
selector strategy yields the same `/product/abc-1/` anchor twice (each
with a name span) returns two committed products whose links yield the
same canonical identity `"abc-1"`, violating the claim on that cited
variant. -/
theorem claim1_counterexample :
    ((mainSearchTrace "q" 10 false
      { entryHtml := "ok", recoveryHtml := "ok",
        elementsFor := fun _ =>
          [ { href := some "/product/abc-1/", innerHrefProduct := none,
              queryText := fun s => if s = "span.tsBody500Medium"
                then some "Some Product Name" else none, imgSrc := none },
            { href := some "/product/abc-1/", innerHrefProduct := none,
              queryText := fun s => if s = "span.tsBody500Medium"
                then some "Some Product Name" else none, imgSrc := none } ] }).result.products.map
        (fun p => canonicalId p.link)) = ["abc-1", "abc-1"] ∧
    ¬ ((mainSearchTrace "q" 10 false
      { entryHtml := "ok", recoveryHtml := "ok",
        elementsFor := fun _ =>
          [ { href := some "/product/abc-1/", innerHrefProduct := none,
              queryText := fun s => if s = "span.tsBody500Medium"
                then some "Some Product Name" else none, imgSrc := none },
            { href := some "/product/abc-1/", innerHrefProduct := none,
              queryText := fun s => if s = "span.tsBody500Medium"
                then some "Some Product Name" else none, imgSrc := none } ] }).result.products.Pairwise
        (fun a b => canonicalId a.link ≠ canonicalId b.link)) := by
  decide

/-- C1 as amended: only the STEALTH `Search` deduplicates.  For every
stealth `Search` call the canonical identity is the pure function
`canonicalId` of the resolved absolute link (the path segment after
`"/product/"`, truncated at the query delimiter and the path separator),
the returned products never contain two links with the same identity,
and of elements sharing an identity only the first in DOM encounter
order is kept: the extraction loop equals deduplication keeping first
occurrences over the DOM-ordered candidates, capped at the budget.  The
`src/main.go` variant performs no deduplication and can return
duplicate identities. -/
theorem claim1_canonical_identity_dedup :
    (∀ (q : String) (maxP : Int) (debug : Bool) (pg : StealthPageView),
      ((stealthSearchTrace q maxP debug pg).result.products).Pairwise
        (fun a b => canonicalId a.link ≠ canonicalId b.link))
  ∧ (∀ (maxP : Int) (elems : List SElem),
      stealthExtract maxP elems =
        (dedupFirstAux [] (candidates elems)).take maxP.toNat)
  ∧ canonicalId "https://www.ozon.ru/product/wireless-headphones-123456/?from=x"
      = "wireless-headphones-123456"
  ∧ canonicalId "https://www.ozon.ru/product/abc?tab=1/z" = "abc" := by
  refine ⟨?_, ?_, by decide, by decide⟩
  · intro q maxP debug pg
    rcases stealthTrace_products q maxP debug pg with h | h
    · rw [h]
      exact List.Pairwise.nil
    · rw [h]
      exact stealthExtract_pairwise maxP pg.elems
  · intro maxP elems
    rw [stealthExtract, stealthLoop_eq_dedup]
    have h0 : maxP - 0 = maxP := by omega
    rw [h0]

/-- C1 witness: the dedup invariant evaluated on a concrete page with a
duplicated canonical identity. -/
theorem claim1_witness :
    ((stealthSearchTrace "q" 10 false
      { entryHtml := "ok", recoveryHtml := "ok", hasReloadBtn := false,
        elems :=
          [ { href := some "/product/abc-1/?x=1",
              text := "Wireless Headphones XL\n2 990 ₽", imgSrc := none },
            { href := some "https://www.ozon.ru/product/abc-1/", text := "dup",
              imgSrc := none },
            { href := some "/product/zzz-2/", text := "Another Product Name\n1 000 ₽",
              imgSrc := some "i.png" } ] }).result.products).Pairwise
      (fun a b => canonicalId a.link ≠ canonicalId b.link) :=
  claim1_canonical_identity_dedup.1 "q" 10 false _
/-- C2 counterexample.  First instance: entry content and re-fetched
content both contain the configured block marker `"Antibot"`, yet the
call does not signal the failure (the recovery re-check only looks for
`"Доступ ограничен"`).  Second instance: both contents contain
`"Доступ ограничен"` but debug is off, the call fails as claimed yet
writes the diagnostic snapshot zero times, not once. -/
theorem claim2_counterexample :
    (stealthSearchTrace "x" 10 true
      { entryHtml := "Antibot", recoveryHtml := "Antibot", hasReloadBtn := false,
        elems := [] }).accessErr = false ∧
    blockedEntry "Antibot" = true ∧
    (stealthSearchTrace "x" 10 false
      { entryHtml := "Доступ ограничен", recoveryHtml := "Доступ ограничен",
        hasReloadBtn := false, elems := [] }).accessErr = true ∧
    (stealthSearchTrace "x" 10 false
      { entryHtml := "Доступ ограничен", recoveryHtml := "Доступ ограничен",
        hasReloadBtn := false, elems := [] }).diagWrites = 0 := by
  decide

/-- C2 as amended: when the entry content contains a configured block
marker and the re-fetched content still contains the marker
`"Доступ ограничен"`, the stealth `Search` fails after the single
recovery cycle, signals the access-restricted error paired with the
empty result (count 0, no products), and writes the raw rendered content
to the diagnostic location exactly once when debug is enabled and zero
times otherwise. -/
theorem claim2_blocked_budget (q : String) (maxP : Int) (debug : Bool)
    (pg : StealthPageView) (h1 : blockedEntry pg.entryHtml = true)
    (h2 : stillBlocked pg.recoveryHtml = true) :
    (stealthSearchTrace q maxP debug pg).accessErr = true ∧
    (stealthSearchTrace q maxP debug pg).result =
      { query := q, count := 0, products := [] } ∧
    (stealthSearchTrace q maxP debug pg).diagWrites = (if debug then 1 else 0) ∧
    (stealthSearchTrace q maxP debug pg).cooldownWaits = 1 := by
  unfold stealthSearchTrace
  simp [h1, h2]

/-- C2 witness: the amended statement discharged on a concrete
always-blocked page with debug enabled. -/
theorem claim2_witness :
    (stealthSearchTrace "x" 10 true
      { entryHtml := "Доступ ограничен", recoveryHtml := "Доступ ограничен",
        hasReloadBtn := true, elems := [] }).accessErr = true ∧
    (stealthSearchTrace "x" 10 true
      { entryHtml := "Доступ ограничен", recoveryHtml := "Доступ ограничен",
        hasReloadBtn := true, elems := [] }).result =
      { query := "x", count := 0, products := [] } ∧
    (stealthSearchTrace "x" 10 true
      { entryHtml := "Доступ ограничен", recoveryHtml := "Доступ ограничен",
        hasReloadBtn := true, elems := [] }).diagWrites = (if true then 1 else 0) ∧
    (stealthSearchTrace "x" 10 true
      { entryHtml := "Доступ ограничен", recoveryHtml := "Доступ ограничен",
        hasReloadBtn := true, elems := [] }).cooldownWaits = 1 :=
  claim2_blocked_budget "x" 10 true _ (by decide) (by decide)
/-- C3 counterexample: for the element text `"Кофеварка\n2 990 ₽"` the
code takes `"Кофеварка"` as the name — a line of 9 characters, not
longer than 10 characters — because Go `len` measures the 18 UTF-8 bytes
of the line; the claim's character-count rule yields no name here. -/
theorem claim3_counterexample :
    (extractNamePrice "Кофеварка\n2 990 ₽").1
        ≠ specNameByCharCount "Кофеварка\n2 990 ₽" ∧
    (extractNamePrice "Кофеварка\n2 990 ₽").1 = "Кофеварка" ∧
    specNameByCharCount "Кофеварка\n2 990 ₽" = "" ∧
    String.length "Кофеварка" ≤ 10 ∧ 10 < goLen "Кофеварка" := by
  decide

/-- C3 as amended: the name is the first trimmed line of UTF-8 BYTE
length greater than 10 that does not contain the currency marker (for
multi-byte text this is not `longer than 10 characters`), the price is
the first line containing the marker, and the example fixture extracts
name `"Wireless Headphones XL"` and price `"2 990 ₽"`. -/
theorem claim3_name_price_rule :
    (∀ (text : String),
      extractNamePrice text = (nameByByteRule text, priceRule text))
  ∧ extractNamePrice "Wireless Headphones XL\n2 990 ₽"
      = ("Wireless Headphones XL", "2 990 ₽") :=
  ⟨extractNamePrice_eq, by decide⟩
/-- C4 counterexample: at `maxProducts = -1` (a legal Go `int`) the
returned product list is empty, so `len(products) ≤ maxProducts` fails:
`0 ≤ -1` is false.  The claim quantifies over all values of
`maxProducts`. -/
theorem claim4_counterexample :
    ¬ (((mainSearchTrace "q" (-1) false
        { entryHtml := "ok", recoveryHtml := "ok",
          elementsFor := fun _ => [] }).result.products.length : Int) ≤ -1) := by
  decide

/-- C4 as amended: for both variants `count` always equals
`len(products)`; `len(products) ≤ maxProducts` holds for every
`maxProducts ≥ 0`; for negative `maxProducts` the product list is
empty. -/
theorem claim4_count_and_bound (q : String) (maxP : Int) (debug : Bool)
    (pgM : MainPageView) (pgS : StealthPageView) :
    ((mainSearchTrace q maxP debug pgM).result.count =
       ((mainSearchTrace q maxP debug pgM).result.products.length : Int)) ∧
    ((stealthSearchTrace q maxP debug pgS).result.count =
       ((stealthSearchTrace q maxP debug pgS).result.products.length : Int)) ∧
    (0 ≤ maxP →
      ((mainSearchTrace q maxP debug pgM).result.products.length : Int) ≤ maxP ∧
      ((stealthSearchTrace q maxP debug pgS).result.products.length : Int) ≤ maxP) ∧
    (maxP < 0 →
      (mainSearchTrace q maxP debug pgM).result.products = [] ∧
      (stealthSearchTrace q maxP debug pgS).result.products = []) := by
  have h1 := mainTrace_length_le q maxP debug pgM
  have h2 := stealthTrace_length_le q maxP debug pgS
  refine ⟨mainTrace_count q maxP debug pgM, stealthTrace_count q maxP debug pgS,
    ?_, ?_⟩
  · intro h
    constructor <;> omega
  · intro h
    constructor
    · exact List.length_eq_zero.mp (by omega)
    · exact List.length_eq_zero.mp (by omega)

/-- C4 witness: the bound discharged at `maxProducts = 2` on concrete
pages. -/
theorem claim4_witness :
    ((mainSearchTrace "q" 2 false
      { entryHtml := "ok", recoveryHtml := "ok",
        elementsFor := fun _ => [] }).result.products.length : Int) ≤ 2 ∧
    ((stealthSearchTrace "q" 2 false
      { entryHtml := "ok", recoveryHtml := "ok", hasReloadBtn := false,
        elems := [ { href := some "/product/a-1/", text := "Some Long Product Name\n10 ₽",
                     imgSrc := none } ] }).result.products.length : Int) ≤ 2 :=
  (claim4_count_and_bound "q" 2 false _ _).2.2.1 (by decide)
/-- C5 counterexample: a stealth `GetProduct` call whose rendered
content contains the access-restricted marker returns an error and no
product at all, so not every call returns a single Product carrying the
requested url. -/
theorem claim5_counterexample :
    stealthGetProduct "https://www.ozon.ru/product/p-1/"
      { html := "Доступ ограничен", queryText := fun _ => none,
        queryImgSrc := fun _ => none } = none := by
  decide

/-- C5 as amended: each field comes from its own selector cascade and a
missed cascade leaves exactly that field empty without aborting the
others; the call returns a single Product whose link equals the
requested url even when every field misses — unconditionally in the
`src/main.go` variant, and for every call whose rendered content lacks
the access-restricted marker in the stealth variant (a blocked stealth
call returns an error and no product instead). -/
theorem claim5_detail_fields (url : String) (pg : DetailPage)
    (hok : goContains pg.html "Доступ ограничен" = false) :
    (mainGetProduct url pg =
      { name := detailNameOf pg,
        price := cascadeText pg.queryText mainDetailPriceSelectors,
        oldPrice := "", link := url, image := detailImageOf pg,
        rating := mainDetailRatingOf pg, reviews := "", delivery := "" }) ∧
    (stealthGetProduct url pg =
      some { name := detailNameOf pg,
             price := cascadePriceRu pg.queryText stealthDetailPriceSelectors,
             oldPrice := "", link := url, image := detailImageOf pg,
             rating := stealthDetailRatingOf pg, reviews := "", delivery := "" }) ∧
    (∀ (h : String),
      mainGetProduct url
          { html := h, queryText := fun _ => none, queryImgSrc := fun _ => none } =
        { name := "", price := "", oldPrice := "", link := url, image := "",
          rating := "", reviews := "", delivery := "" }) ∧
    (∀ (h : String), goContains h "Доступ ограничен" = false →
      stealthGetProduct url
          { html := h, queryText := fun _ => none, queryImgSrc := fun _ => none } =
        some { name := "", price := "", oldPrice := "", link := url, image := "",
               rating := "", reviews := "", delivery := "" }) := by
  refine ⟨rfl, ?_, fun h => rfl, ?_⟩
  · unfold stealthGetProduct
    rw [hok]
    rfl
  · intro h hh
    unfold stealthGetProduct
    rw [hh]
    rfl

/-- C5 witness: the amended statement discharged on a concrete
unblocked page with every cascade missing. -/
theorem claim5_witness :
    mainGetProduct "https://www.ozon.ru/product/p-1/"
      { html := "ok", queryText := fun _ => none, queryImgSrc := fun _ => none } =
      { name := "", price := "", oldPrice := "",
        link := "https://www.ozon.ru/product/p-1/", image := "", rating := "",
        reviews := "", delivery := "" } ∧
    stealthGetProduct "https://www.ozon.ru/product/p-1/"
      { html := "ok", queryText := fun _ => none, queryImgSrc := fun _ => none } =
      some { name := "", price := "", oldPrice := "",
             link := "https://www.ozon.ru/product/p-1/", image := "", rating := "",
             reviews := "", delivery := "" } :=
  ⟨(claim5_detail_fields "https://www.ozon.ru/product/p-1/"
      { html := "ok", queryText := fun _ => none, queryImgSrc := fun _ => none }
      (by decide)).2.2.1 "ok",
   (claim5_detail_fields "https://www.ozon.ru/product/p-1/"
      { html := "ok", queryText := fun _ => none, queryImgSrc := fun _ => none }
      (by decide)).2.2.2 "ok" (by decide)⟩
/-- C6 counterexample: on an unblocked page where every selector
strategy yields zero elements and debug logging is off, `Search` returns
the empty result with no error but writes no diagnostic snapshot — the
snapshot is only persisted in debug mode. -/
theorem claim6_counterexample :
    (mainSearchTrace "x" 5 false
      { entryHtml := "ok", recoveryHtml := "ok",
        elementsFor := fun _ => [] }).diagWrites = 0 ∧
    (mainSearchTrace "x" 5 false
      { entryHtml := "ok", recoveryHtml := "ok",
        elementsFor := fun _ => [] }).result =
      { query := "x", count := 0, products := [] } ∧
    (mainSearchTrace "x" 5 false
      { entryHtml := "ok", recoveryHtml := "ok",
        elementsFor := fun _ => [] }).accessErr = false := by
  decide

/-- C6 as amended: if on an unblocked page every element-selection
strategy yields zero elements, both `Search` variants return an empty
SearchResult (count 0, empty products) with no error, and persist the
diagnostic snapshot exactly once when debug is enabled and zero times
otherwise. -/
theorem claim6_empty_cascade (q : String) (maxP : Int) (debug : Bool)
    (pgM : MainPageView) (pgS : StealthPageView)
    (_hm0 : mainBlockMarker pgM.entryHtml = false)
    (hm : ∀ s ∈ mainSelectors, pgM.elementsFor s = [])
    (hs0 : blockedEntry pgS.entryHtml = false)
    (hs : pgS.elems = []) :
    ((mainSearchTrace q maxP debug pgM).result =
        { query := q, count := 0, products := [] } ∧
      (mainSearchTrace q maxP debug pgM).accessErr = false ∧
      (mainSearchTrace q maxP debug pgM).diagWrites = (if debug then 1 else 0)) ∧
    ((stealthSearchTrace q maxP debug pgS).result =
        { query := q, count := 0, products := [] } ∧
      (stealthSearchTrace q maxP debug pgS).accessErr = false ∧
      (stealthSearchTrace q maxP debug pgS).diagWrites = (if debug then 1 else 0)) := by
  have hfh : firstHit pgM.elementsFor mainSelectors = [] := firstHit_empty _ _ hm
  constructor
  · unfold mainSearchTrace
    simp [hfh]
  · unfold stealthSearchTrace stealthProceed
    simp [hs0, hs]

/-- C6 witness: the amended statement discharged on concrete element-free
pages with debug enabled. -/
theorem claim6_witness :
    ((mainSearchTrace "x" 5 true
        { entryHtml := "ok", recoveryHtml := "ok",
          elementsFor := fun _ => [] }).result =
        { query := "x", count := 0, products := [] } ∧
      (mainSearchTrace "x" 5 true
        { entryHtml := "ok", recoveryHtml := "ok",
          elementsFor := fun _ => [] }).accessErr = false ∧
      (mainSearchTrace "x" 5 true
        { entryHtml := "ok", recoveryHtml := "ok",
          elementsFor := fun _ => [] }).diagWrites = (if true then 1 else 0)) ∧
    ((stealthSearchTrace "x" 5 true
        { entryHtml := "ok", recoveryHtml := "ok", hasReloadBtn := false,
          elems := [] }).result = { query := "x", count := 0, products := [] } ∧
      (stealthSearchTrace "x" 5 true
        { entryHtml := "ok", recoveryHtml := "ok", hasReloadBtn := false,
          elems := [] }).accessErr = false ∧
      (stealthSearchTrace "x" 5 true
        { entryHtml := "ok", recoveryHtml := "ok", hasReloadBtn := false,
          elems := [] }).diagWrites = (if true then 1 else 0)) :=
  claim6_empty_cascade "x" 5 true _ _ (by decide) (by intro s _; rfl) (by decide) rfl

/-- C7: when the rendered content at the first check contains no
configured block marker, the state machine is `Unblocked` at that first
check and the stealth `Search` performs zero recovery actions — no extra
behavior-simulation pass, no reload click, no cooldown wait — and no
error is signalled; the `src/main.go` variant likewise takes zero
antibot waits. -/
theorem claim7_unblocked_first_check (q : String) (maxP : Int) (debug : Bool)
    (pgS : StealthPageView) (pgM : MainPageView)
    (hs : blockedEntry pgS.entryHtml = false)
    (hm : mainBlockMarker pgM.entryHtml = false) :
    entryState pgS.entryHtml = BlockState.unblocked ∧
    (stealthSearchTrace q maxP debug pgS).recoverySimPasses = 0 ∧
    (stealthSearchTrace q maxP debug pgS).reloadClicks = 0 ∧
    (stealthSearchTrace q maxP debug pgS).cooldownWaits = 0 ∧
    (stealthSearchTrace q maxP debug pgS).accessErr = false ∧
    (mainSearchTrace q maxP debug pgM).antibotWaits = 0 := by
  have h1 : entryState pgS.entryHtml = BlockState.unblocked := by
    unfold entryState
    simp [hs]
  refine ⟨h1, ?_, ?_, ?_, ?_, ?_⟩ <;>
    first
      | (unfold stealthSearchTrace stealthProceed
         by_cases h3 : pgS.elems.isEmpty <;> simp [hs, h3])
      | (unfold mainSearchTrace
         by_cases h4 : (firstHit pgM.elementsFor mainSelectors).isEmpty <;>
           simp [hm, h4])

/-- C7 witness: the statement discharged on concrete unblocked pages. -/
theorem claim7_witness :
    entryState "ok" = BlockState.unblocked ∧
    (stealthSearchTrace "x" 5 false
      { entryHtml := "ok", recoveryHtml := "ok", hasReloadBtn := false,
        elems := [] }).recoverySimPasses = 0 ∧
    (stealthSearchTrace "x" 5 false
      { entryHtml := "ok", recoveryHtml := "ok", hasReloadBtn := false,
        elems := [] }).reloadClicks = 0 ∧
    (stealthSearchTrace "x" 5 false
      { entryHtml := "ok", recoveryHtml := "ok", hasReloadBtn := false,
        elems := [] }).cooldownWaits = 0 ∧
    (stealthSearchTrace "x" 5 false
      { entryHtml := "ok", recoveryHtml := "ok", hasReloadBtn := false,
        elems := [] }).accessErr = false ∧
    (mainSearchTrace "x" 5 false
      { entryHtml := "ok", recoveryHtml := "ok",
        elementsFor := fun _ => [] }).antibotWaits = 0 :=
  claim7_unblocked_first_check "x" 5 false
    { entryHtml := "ok", recoveryHtml := "ok", hasReloadBtn := false, elems := [] }
    { entryHtml := "ok", recoveryHtml := "ok", elementsFor := fun _ => [] }
    (by decide) (by decide)
/-- C8 counterexample: with draws `Intn(1700) = 1699` the first pointer
move targets x = 1799, far outside the configured 414 x 896 viewport —
coordinates are never clamped to the viewport bounds. -/
theorem claim8_counterexample :
    SimAction.move 1799 100 ∈ simulateHuman (fun i => if i = 0 then 1699 else 0) ∧
    ¬ (1799 ≤ stealthViewportWidth) := by
  decide

/-- C8 as amended: `simulateHuman` performs exactly 3 pointer moves with
x in [100, 1799] and y in [100, 899] — drawn independently of the
414 x 896 viewport and not clamped to it — each followed by a randomized
100-299 ms delay, then one scroll of magnitude 200-599 px followed by a
randomized 500-999 ms delay. -/
theorem claim8_simulate_human_shape (r : Nat → Nat) :
    ((simulateHuman r).filter isMove).length = 3 ∧
    simulateHuman r =
      [SimAction.move (100 + r 0 % 1700) (100 + r 1 % 800),
       SimAction.sleepMs (100 + r 2 % 200),
       SimAction.move (100 + r 3 % 1700) (100 + r 4 % 800),
       SimAction.sleepMs (100 + r 5 % 200),
       SimAction.move (100 + r 6 % 1700) (100 + r 7 % 800),
       SimAction.sleepMs (100 + r 8 % 200),
       SimAction.scroll 0 (200 + r 9 % 400),
       SimAction.sleepMs (500 + r 10 % 500)] ∧
    (∀ (x y : Nat), SimAction.move x y ∈ simulateHuman r →
      100 ≤ x ∧ x ≤ 1799 ∧ 100 ≤ y ∧ y ≤ 899) ∧
    (∀ (dx dy : Nat), SimAction.scroll dx dy ∈ simulateHuman r →
      dx = 0 ∧ 200 ≤ dy ∧ dy ≤ 599) := by
  have hshape : simulateHuman r =
      [SimAction.move (100 + r 0 % 1700) (100 + r 1 % 800),
       SimAction.sleepMs (100 + r 2 % 200),
       SimAction.move (100 + r 3 % 1700) (100 + r 4 % 800),
       SimAction.sleepMs (100 + r 5 % 200),
       SimAction.move (100 + r 6 % 1700) (100 + r 7 % 800),
       SimAction.sleepMs (100 + r 8 % 200),
       SimAction.scroll 0 (200 + r 9 % 400),
       SimAction.sleepMs (500 + r 10 % 500)] := by
    simp [simulateHuman, List.range_succ]
  refine ⟨?_, hshape, ?_, ?_⟩
  · rw [hshape]
    simp [isMove]
  · intro x y hxy
    rw [hshape] at hxy
    have h0 : r 0 % 1700 < 1700 := Nat.mod_lt _ (by omega)
    have h1 : r 1 % 800 < 800 := Nat.mod_lt _ (by omega)
    have h3 : r 3 % 1700 < 1700 := Nat.mod_lt _ (by omega)
    have h4 : r 4 % 800 < 800 := Nat.mod_lt _ (by omega)
    have h6 : r 6 % 1700 < 1700 := Nat.mod_lt _ (by omega)
    have h7 : r 7 % 800 < 800 := Nat.mod_lt _ (by omega)
    simp only [List.mem_cons, List.not_mem_nil, or_false] at hxy
    rcases hxy with h | h | h | h | h | h | h | h <;>
      first
        | (cases h; omega)
        | (exact absurd h (by simp))
  · intro dx dy hxy
    rw [hshape] at hxy
    have h9 : r 9 % 400 < 400 := Nat.mod_lt _ (by omega)
    simp only [List.mem_cons, List.not_mem_nil, or_false] at hxy
    rcases hxy with h | h | h | h | h | h | h | h <;>
      first
        | (cases h; omega)
        | (exact absurd h (by simp))

/-- C8 witness: the amended shape discharged on a concrete draw
sequence. -/
theorem claim8_witness :
    100 ≤ 100 ∧ 100 ≤ 1799 ∧ 100 ≤ 100 ∧ 100 ≤ 899 :=
  (claim8_simulate_human_shape (fun _ => 0)).2.2.1 100 100 (by decide)
/-- C9 counterexample: an empty `name` and an empty `price` are still
emitted as empty strings in the serialized wire shape — their struct
tags carry no `omitempty`. -/
theorem claim9_counterexample :
    ("name", "") ∈ productJSONFields
      { name := "", price := "2 990 ₽", oldPrice := "",
        link := "https://www.ozon.ru/product/p-1/", image := "", rating := "",
        reviews := "", delivery := "" } ∧
    ("price", "") ∈ productJSONFields
      { name := "Wireless Headphones XL", price := "", oldPrice := "",
        link := "https://www.ozon.ru/product/p-2/", image := "", rating := "",
        reviews := "", delivery := "" } := by
  decide

/-- C9 as amended: in the serialized wire shape the fields `old_price`,
`image`, `rating`, `reviews` and `delivery` are omitted exactly when
empty, while `name`, `price` and `link` are always emitted, even when
empty (their tags carry no `omitempty`). -/
theorem claim9_omitempty (p : Product) :
    ("name", p.name) ∈ productJSONFields p ∧
    ("price", p.price) ∈ productJSONFields p ∧
    ("link", p.link) ∈ productJSONFields p ∧
    ("old_price" ∈ jsonKeys p ↔ p.oldPrice ≠ "") ∧
    ("image" ∈ jsonKeys p ↔ p.image ≠ "") ∧
    ("rating" ∈ jsonKeys p ↔ p.rating ≠ "") ∧
    ("reviews" ∈ jsonKeys p ↔ p.reviews ≠ "") ∧
    ("delivery" ∈ jsonKeys p ↔ p.delivery ≠ "") := by
  by_cases h1 : p.oldPrice = "" <;> by_cases h2 : p.image = "" <;>
    by_cases h3 : p.rating = "" <;> by_cases h4 : p.reviews = "" <;>
    by_cases h5 : p.delivery = "" <;>
    simp [productJSONFields, jsonKeys, h1, h2, h3, h4, h5]

/-- C9 witness: the always-emitted and omitted keys evaluated on a
concrete product with empty optional fields. -/
theorem claim9_witness :
    ("name", "Wireless Headphones XL") ∈ productJSONFields
      { name := "Wireless Headphones XL", price := "2 990 ₽", oldPrice := "",
        link := "https://www.ozon.ru/product/p-1/", image := "", rating := "",
        reviews := "", delivery := "" } ∧
    ("price", "2 990 ₽") ∈ productJSONFields
      { name := "Wireless Headphones XL", price := "2 990 ₽", oldPrice := "",
        link := "https://www.ozon.ru/product/p-1/", image := "", rating := "",
        reviews := "", delivery := "" } ∧
    ("link", "https://www.ozon.ru/product/p-1/") ∈ productJSONFields
      { name := "Wireless Headphones XL", price := "2 990 ₽", oldPrice := "",
        link := "https://www.ozon.ru/product/p-1/", image := "", rating := "",
        reviews := "", delivery := "" } ∧
    ("old_price" ∈ jsonKeys
      { name := "Wireless Headphones XL", price := "2 990 ₽", oldPrice := "",
        link := "https://www.ozon.ru/product/p-1/", image := "", rating := "",
        reviews := "", delivery := "" } ↔ ("" : String) ≠ "") ∧
    ("image" ∈ jsonKeys
      { name := "Wireless Headphones XL", price := "2 990 ₽", oldPrice := "",
        link := "https://www.ozon.ru/product/p-1/", image := "", rating := "",
        reviews := "", delivery := "" } ↔ ("" : String) ≠ "") ∧
    ("rating" ∈ jsonKeys
      { name := "Wireless Headphones XL", price := "2 990 ₽", oldPrice := "",
        link := "https://www.ozon.ru/product/p-1/", image := "", rating := "",
        reviews := "", delivery := "" } ↔ ("" : String) ≠ "") ∧
    ("reviews" ∈ jsonKeys
      { name := "Wireless Headphones XL", price := "2 990 ₽", oldPrice := "",
        link := "https://www.ozon.ru/product/p-1/", image := "", rating := "",
        reviews := "", delivery := "" } ↔ ("" : String) ≠ "") ∧
    ("delivery" ∈ jsonKeys
      { name := "Wireless Headphones XL", price := "2 990 ₽", oldPrice := "",
        link := "https://www.ozon.ru/product/p-1/", image := "", rating := "",
        reviews := "", delivery := "" } ↔ ("" : String) ≠ "") :=
  claim9_omitempty
    { name := "Wireless Headphones XL", price := "2 990 ₽", oldPrice := "",
      link := "https://www.ozon.ru/product/p-1/", image := "", rating := "",
      reviews := "", delivery := "" }
/-- C10: in the `src/main.go` variant every returned product has a
non-empty name or a non-empty price, in addition to a non-empty link
containing `"/product/"`; and an element whose extracted name and price
are both empty is never emitted and never consumes `maxProducts` budget,
even when it carries a valid product link. -/
theorem claim10_committed_products :
    (∀ (q : String) (maxP : Int) (debug : Bool) (pg : MainPageView)
        (p : Product), p ∈ (mainSearchTrace q maxP debug pg).result.products →
      (p.name ≠ "" ∨ p.price ≠ "") ∧ p.link ≠ "" ∧
        goContains p.link "/product/" = true)
  ∧ (∀ (maxP count : Int) (e : MElem) (rest : List MElem),
      mainElemName e = "" → mainElemPrice e = "" →
      mainSearchLoop maxP (e :: rest) count = mainSearchLoop maxP rest count) := by
  constructor
  · intro q maxP debug pg p hp
    rcases mainTrace_products q maxP debug pg with h | h
    · rw [h] at hp
      simp at hp
    · rw [h] at hp
      exact mainLoop_mem maxP _ 0 p hp
  · intro maxP count e rest hn hp
    exact mainLoop_skip_empty maxP count e rest hn hp

/-- C10 witness: a concrete element with a valid product link but empty
name and price is transparent to the loop. -/
theorem claim10_witness :
    mainSearchLoop 5
      [{ href := some "/product/abc-1/", innerHrefProduct := none,
         queryText := fun _ => none, imgSrc := none }] 0 =
      mainSearchLoop 5 [] 0 :=
  claim10_committed_products.2 5 0
    { href := some "/product/abc-1/", innerHrefProduct := none,
      queryText := fun _ => none, imgSrc := none } [] rfl rfl
